import Mathlib

/-!
Verification of the inspection scoring engine of the vehicle-checklist app
(`pdf_service.py`): status normalization, the summary aggregator
`_calculate_summary_percentages`, the per-group pass-rate calculator
`_calculate_group_pass_rates`, the resolution-advice function
`_get_resolution_advice`, and the Overall Assessment selection inside
`_generate_comments_and_analysis`.

Answer values are modelled as `Option String` (Python `dict.get` returns the
value or `None`); the answer map itself is a function `String → Option String`.
Python floats are modelled by exact rationals `ℚ`; Python `f"{x:.0f}"`
formatting is modelled by round-half-to-even on `ℚ` followed by decimal
printing of the integer.
-/

namespace PdfService

/-- The six whitespace characters stripped by Python `str.strip()` on ASCII
text: space, tab, newline, vertical tab, form feed, carriage return. -/
def pyWhitespace : List Char := [' ', '\t', '\n', '\x0B', '\x0C', '\r']

def pyIsSpace (c : Char) : Bool := pyWhitespace.contains c

/-- Python `str.strip()` (ASCII whitespace model): drop whitespace from both
ends. -/
def pyStrip (s : String) : String :=
  String.mk (((s.toList.dropWhile pyIsSpace).reverse.dropWhile pyIsSpace).reverse)

/-- Python `str.lower()` (ASCII model): lowercase every character. -/
def pyLower (s : String) : String := String.mk (s.data.map Char.toLower)

/-- Round half to even, the rounding used by Python `.0f` float formatting. -/
def roundHalfEven (q : ℚ) : ℤ :=
  let n : ℤ := ⌊q⌋
  if q - n < 1 / 2 then n
  else if q - n > 1 / 2 then n + 1
  else if n % 2 = 0 then n else n + 1

/-- Python `f"{x:.0f}"` for the nonnegative rates occurring here. -/
def pyFormat0f (q : ℚ) : String := toString (roundHalfEven q)

/-- The `ChecklistItem` pydantic model (pdf_service.py lines 14-18).  The
`Literal` type of `ChecklistType` is modelled as `String`; the literal
alternatives are "Pass/Fail", "Yes/No", "Okay/Not Okay". -/
structure ChecklistItem where
  ChecklistName : String
  ChecklistSerialNo : Int
  ChecklistId : String
  ChecklistType : String
  deriving DecidableEq, Repr

/-- The `ChecklistGroup` pydantic model (pdf_service.py lines 20-24). -/
structure ChecklistGroup where
  GroupName : String
  GroupId : String
  SerialNo : Int
  Checklist : List ChecklistItem
  deriving DecidableEq, Repr

/-- The `FullChecklist` model is a `RootModel[List[ChecklistGroup]]`: its `.root` is the
list of groups (the loops iterate `checklist_data.root`). -/
structure FullChecklist where
  root : List ChecklistGroup
  deriving DecidableEq, Repr

/-- The composite key `f"{group.GroupId}_{item.ChecklistId}_{item.ChecklistSerialNo}"`
(pdf_service.py line 313). -/
def itemKey (g : ChecklistGroup) (it : ChecklistItem) : String :=
  g.GroupId ++ "_" ++ it.ChecklistId ++ "_" ++ toString it.ChecklistSerialNo

/-- Lines 316-323: `submitted_form_data.get(unique_id)` is `None` when the key
is absent; `None` becomes `"no selection made"`, any present value is
stripped and lowercased. -/
def normalizeAnswer (raw : Option String) : String :=
  match raw with
  | none => "no selection made"
  | some s => pyLower (pyStrip s)

/-- The three buckets an item is counted into. -/
inductive ItemOutcome where
  | passed
  | failed
  | skipped
  deriving DecidableEq, Repr

/-- Lines 326-340: classification of the standardized `result` string.  The
source has two arms producing `skipped` (`result == "no selection made"` and
the catch-all `else`); both increment `skipped_count` and append an
attention entry with status `"skipped"`, so they are one bucket here. -/
def classify (result : String) : ItemOutcome :=
  if result = "pass" ∨ result = "yes" ∨ result = "okay" then ItemOutcome.passed
  else if result = "fail" ∨ result = "no" ∨ result = "not okay" then ItemOutcome.failed
  else ItemOutcome.skipped

/-- The normalized result string of one item under an answer map. -/
def itemResult (submitted_form_data : String → Option String)
    (g : ChecklistGroup) (it : ChecklistItem) : String :=
  normalizeAnswer (submitted_form_data (itemKey g it))

/-- The bucket of one item under an answer map. -/
def itemOutcome (submitted_form_data : String → Option String)
    (g : ChecklistGroup) (it : ChecklistItem) : ItemOutcome :=
  classify (itemResult submitted_form_data g it)

/-- The enumeration order of the nested loops in lines 310-311: group order,
then item order within the group; each item paired with its group. -/
def allItems (checklist_data : FullChecklist) : List (ChecklistGroup × ChecklistItem) :=
  (checklist_data.root.map (fun g => g.Checklist.map (fun it => (g, it)))).flatten

/-- One entry of `items_requiring_attention`: the dict
`{"name": ..., "type": ..., "status": ...}` appended at lines 331, 337, 340. -/
structure AttentionItem where
  name : String
  type : String
  status : String
  deriving DecidableEq, Repr

/-- The summary dict returned at lines 348-358. -/
structure Summary where
  total_items : Nat
  passed_count : Nat
  passed_percentage : ℚ
  failed_count : Nat
  failed_percentage : ℚ
  skipped_count : Nat
  skipped_percentage : ℚ
  items_requiring_attention : List AttentionItem
  deriving DecidableEq, Repr

/-- Embedding of `_calculate_summary_percentages` (pdf_service.py lines 303-360).  The
imperative single pass is rendered as counts of the classified items in
enumeration order; `items_requiring_attention` collects, in the same order,
one entry per item classified failed or skipped. -/
def _calculate_summary_percentages (checklist_data : FullChecklist)
    (submitted_form_data : String → Option String) : Summary :=
  let items := allItems checklist_data
  let total_items := items.length
  let passed_count :=
    (items.filter (fun p => decide (itemOutcome submitted_form_data p.1 p.2 = ItemOutcome.passed))).length
  let failed_count :=
    (items.filter (fun p => decide (itemOutcome submitted_form_data p.1 p.2 = ItemOutcome.failed))).length
  let skipped_count :=
    (items.filter (fun p => decide (itemOutcome submitted_form_data p.1 p.2 = ItemOutcome.skipped))).length
  let items_requiring_attention := items.filterMap (fun p =>
    match itemOutcome submitted_form_data p.1 p.2 with
    | ItemOutcome.passed => none
    | ItemOutcome.failed =>
        some { name := p.2.ChecklistName, type := p.2.ChecklistType, status := "failed" }
    | ItemOutcome.skipped =>
        some { name := p.2.ChecklistName, type := p.2.ChecklistType, status := "skipped" })
  { total_items := total_items
    passed_count := passed_count
    passed_percentage := if total_items > 0 then (passed_count : ℚ) / (total_items : ℚ) * 100 else 0
    failed_count := failed_count
    failed_percentage := if total_items > 0 then (failed_count : ℚ) / (total_items : ℚ) * 100 else 0
    skipped_count := skipped_count
    skipped_percentage := if total_items > 0 then (skipped_count : ℚ) / (total_items : ℚ) * 100 else 0
    items_requiring_attention := items_requiring_attention }

/-- The per-group passed counter of lines 372-386 (items of one group whose
standardized result is in `["pass", "yes", "okay"]`). -/
def groupPassedCount (submitted_form_data : String → Option String)
    (g : ChecklistGroup) : Nat :=
  (g.Checklist.filter (fun it => decide (itemOutcome submitted_form_data g it = ItemOutcome.passed))).length

/-- One entry of the list returned by `_calculate_group_pass_rates`
(lines 392-395). -/
structure GroupPassRate where
  GroupName : String
  PassRate : String
  deriving DecidableEq, Repr

/-- The local `group_pass_percentage` of lines 388-390: `0.0` when the group
has no items, otherwise `group_passed_count / group_total_items * 100`. -/
def groupPassPercentage (submitted_form_data : String → Option String)
    (g : ChecklistGroup) : ℚ :=
  if g.Checklist.length > 0 then
    (groupPassedCount submitted_form_data g : ℚ) / (g.Checklist.length : ℚ) * 100
  else 0

/-- Embedding of `_calculate_group_pass_rates` (pdf_service.py lines 362-397): per group,
the pass percentage, formatted `f"{group_pass_percentage:.0f}%"`. -/
def _calculate_group_pass_rates (checklist_data : FullChecklist)
    (submitted_form_data : String → Option String) : List GroupPassRate :=
  checklist_data.root.map (fun g =>
    { GroupName := g.GroupName
      PassRate := pyFormat0f (groupPassPercentage submitted_form_data g) ++ "%" })

/-- The composite keys of all items of a checklist, the only keys ever looked
up by the scoring loops. -/
def checklistKeys (checklist_data : FullChecklist) : List String :=
  (allItems checklist_data).map (fun p => itemKey p.1 p.2)

/-- The answer map with every entry whose key matches no item of the
checklist removed (the key is answered `none`, i.e. absent). -/
def restrictAnswers (checklist_data : FullChecklist)
    (submitted_form_data : String → Option String) : String → Option String :=
  fun k => if k ∈ checklistKeys checklist_data then submitted_form_data k else none

/-- Advice text for a failed item of type `pass/fail` (line 405). -/
def failedAdvicePassFail (item_name : String) : String :=
  "For \x27" ++ item_name ++ "\x27 (Failed): Inspect the component thoroughly for wear, damage, or malfunction. Consult a qualified mechanic for repair or replacement."

/-- Advice text for a failed item of type `yes/no` (line 406). -/
def failedAdviceYesNo (item_name : String) : String :=
  "For \x27" ++ item_name ++ "\x27 (Failed): Investigate why the condition is not met. Address the underlying issue (e.g., refill, repair, adjust) to ensure compliance."

/-- Advice text for a failed item of type `okay/not okay` (line 407). -/
def failedAdviceOkayNotOkay (item_name : String) : String :=
  "For \x27" ++ item_name ++ "\x27 (Failed): Identify the specific defect or anomaly. Immediate corrective action or professional repair is advised to restore the item to an \x27Okay\x27 state."

/-- Fallback advice for a failed item of unrecognized type (line 409,
`advice_map.get` default). -/
def failedAdviceDefault (item_name : String) : String :=
  "For \x27" ++ item_name ++ "\x27 (Failed): This item requires attention. Please consult the vehicle\x27s maintenance manual or a professional for specific resolution steps."

/-- The fixed message for a skipped item (line 412), independent of type. -/
def skippedAdvice (item_name : String) : String :=
  "For \x27" ++ item_name ++ "\x27 (Skipped/No Selection): This item was not assessed during the inspection. It is highly recommended to perform a thorough check of this component to ensure it is in good working order and meets safety standards."

/-- The fallback message for an unknown status (line 415). -/
def unknownStatusAdvice (item_name : String) : String :=
  "For \x27" ++ item_name ++ "\x27 (Status Unknown): This item\x27s status is unclear. A full assessment is recommended to determine necessary actions."

/-- Embedding of `_get_resolution_advice` (pdf_service.py lines 399-415): `item_type` is
lowercased before the dictionary lookup, `item_status` is compared verbatim
against `"failed"` and `"skipped"`. -/
def _get_resolution_advice (item_name item_type item_status : String) : String :=
  let item_type_lower := pyLower item_type
  if item_status = "failed" then
    if item_type_lower = "pass/fail" then failedAdvicePassFail item_name
    else if item_type_lower = "yes/no" then failedAdviceYesNo item_name
    else if item_type_lower = "okay/not okay" then failedAdviceOkayNotOkay item_name
    else failedAdviceDefault item_name
  else if item_status = "skipped" then skippedAdvice item_name
  else unknownStatusAdvice item_name

/-- Overall Assessment text of the `passed_percentage >= 90` branch
(pdf_service.py line 470), with the f-string interpolations made explicit. -/
def excellentAssessment (s : Summary) : String :=
  "<b>Overall Assessment:</b> The vehicle recorded an excellent pass rate of " ++
  pyFormat0f s.passed_percentage ++ "% (" ++ toString s.passed_count ++ " out of " ++
  toString s.total_items ++ " items passed). There were " ++ toString s.failed_count ++
  " failed items (" ++ pyFormat0f s.failed_percentage ++ "%) and " ++
  toString s.skipped_count ++ " skipped items (" ++ pyFormat0f s.skipped_percentage ++
  "%). This indicates the vehicle is in <b>optimal condition</b> with minimal to no identified issues. Regular maintenance should continue to ensure its performance and ensure long-term reliability."

/-- Overall Assessment text of the `passed_percentage >= 50` branch
(pdf_service.py line 472). -/
def mixedAssessment (s : Summary) : String :=
  "<b>Overall Assessment:</b> The vehicle recorded a pass rate of " ++
  pyFormat0f s.passed_percentage ++ "% (" ++ toString s.passed_count ++ " out of " ++
  toString s.total_items ++ " items passed). There were " ++ toString s.failed_count ++
  " failed items (" ++ pyFormat0f s.failed_percentage ++ "%) and " ++
  toString s.skipped_count ++ " skipped items (" ++ pyFormat0f s.skipped_percentage ++
  "%). This indicates a mixed condition with a notable number of areas requiring attention. Focused and timely corrective actions are essential to significantly improve the vehicle\x27s reliability, safety, and compliance."

/-- Overall Assessment text of the all-skipped branch (pdf_service.py
line 474). -/
def incompleteAssessment (s : Summary) : String :=
  "<b>Overall Assessment:</b> With all " ++ toString s.total_items ++
  " items skipped, the inspection is incomplete. A pass rate of 0% was recorded as no items were positively assessed (" ++
  pyFormat0f s.skipped_percentage ++
  "% skipped). A full and verified inspection is necessary to provide a definitive assessment of the vehicle\x27s condition and compliance."

/-- Overall Assessment text of the final `else` branch (pdf_service.py
line 476). -/
def nonCompliantAssessment (s : Summary) : String :=
  "<b>Overall Assessment:</b> With a pass rate of " ++
  pyFormat0f s.passed_percentage ++ "% (" ++ toString s.passed_count ++ " out of " ++
  toString s.total_items ++ " items passed), and " ++ toString s.failed_count ++
  " failed items (" ++ pyFormat0f s.failed_percentage ++
  "%), this inspection highlights that the vehicle has <b>significant non-compliance issues</b>. Extensive repairs and maintenance are urgently required to meet operational and safety standards before the vehicle can be considered roadworthy."

/-- The Overall Assessment paragraph selection of
`_generate_comments_and_analysis` (pdf_service.py lines 468-476): an
`if / elif / elif / else` cascade on the summary fields.  The `float(...)`
conversions at lines 462-464 are identities in the rational model, and the
`summary_percentages.get(key, 0)` reads always find their keys in a summary
produced by `_calculate_summary_percentages`. -/
def overallAssessment (s : Summary) : String :=
  if s.passed_percentage ≥ 90 then excellentAssessment s
  else if s.passed_percentage ≥ 50 then mixedAssessment s
  else if s.skipped_count = s.total_items ∧ s.total_items > 0 then incompleteAssessment s
  else nonCompliantAssessment s

/-! Concrete inputs used by the witness theorems. -/

/-- A concrete checklist item (witness data). -/
def itemBrakes : ChecklistItem :=
  { ChecklistName := "Brakes", ChecklistSerialNo := 1, ChecklistId := "i1",
    ChecklistType := "Pass/Fail" }

/-- A concrete checklist item (witness data). -/
def itemHorn : ChecklistItem :=
  { ChecklistName := "Horn", ChecklistSerialNo := 2, ChecklistId := "i2",
    ChecklistType := "Yes/No" }

/-- A concrete group holding the two witness items. -/
def groupSafety : ChecklistGroup :=
  { GroupName := "Safety", GroupId := "g1", SerialNo := 1,
    Checklist := [itemBrakes, itemHorn] }

/-- A concrete checklist with one group of two items. -/
def checklistW : FullChecklist := { root := [groupSafety] }

/-- Concrete answers: Brakes passed, Horn failed. -/
def answersW : String → Option String :=
  fun k => if k = "g1_i1_1" then some "Pass" else if k = "g1_i2_2" then some "Fail" else none

/-- A concrete checklist with a single item. -/
def checklistOne : FullChecklist :=
  { root := [{ GroupName := "Safety", GroupId := "g1", SerialNo := 1,
               Checklist := [itemBrakes] }] }

/-- Concrete answers for `checklistOne`: the single item passes. -/
def answersOne : String → Option String :=
  fun k => if k = "g1_i1_1" then some "Pass" else none

/-- A concrete group of four items (witness data for the group pass rate). -/
def groupFour : ChecklistGroup :=
  { GroupName := "G4", GroupId := "g4", SerialNo := 1,
    Checklist :=
      [{ ChecklistName := "A", ChecklistSerialNo := 1, ChecklistId := "a",
         ChecklistType := "Pass/Fail" },
       { ChecklistName := "B", ChecklistSerialNo := 2, ChecklistId := "b",
         ChecklistType := "Pass/Fail" },
       { ChecklistName := "C", ChecklistSerialNo := 3, ChecklistId := "c",
         ChecklistType := "Pass/Fail" },
       { ChecklistName := "D", ChecklistSerialNo := 4, ChecklistId := "d",
         ChecklistType := "Pass/Fail" }] }

/-- A concrete checklist holding `groupFour`. -/
def checklistFour : FullChecklist := { root := [groupFour] }

/-- Concrete answers for `checklistFour`: three of the four items pass. -/
def answersFour : String → Option String :=
  fun k =>
    if k = "g4_a_1" then some "Pass"
    else if k = "g4_b_2" then some "Pass"
    else if k = "g4_c_3" then some "Pass"
    else if k = "g4_d_4" then some "Fail"
    else none

/-- A concrete group with no items. -/
def groupEmpty : ChecklistGroup :=
  { GroupName := "Empty", GroupId := "ge", SerialNo := 1, Checklist := [] }

/-- The everywhere-absent answer map. -/
def answersNone : String → Option String := fun _ => none

end PdfService

namespace PdfService

/-! Helper lemmas. -/

/-- Every element is classified into exactly one bucket, so the three filter
counts partition the list. -/
theorem length_filter_outcome_partition {α : Type} (f : α → ItemOutcome) (l : List α) :
    (l.filter (fun a => decide (f a = ItemOutcome.passed))).length +
      (l.filter (fun a => decide (f a = ItemOutcome.failed))).length +
      (l.filter (fun a => decide (f a = ItemOutcome.skipped))).length = l.length := by
  induction l with
  | nil => simp
  | cons a l ih =>
    cases h : f a <;> simp [List.filter_cons, h] <;> omega

/-- Bounds of the guarded percentage expression used for all six percentage
computations. -/
theorem pct_bounds (p t : Nat) (hpt : p ≤ t) :
    0 ≤ (if t > 0 then (p : ℚ) / (t : ℚ) * 100 else 0) ∧
      (if t > 0 then (p : ℚ) / (t : ℚ) * 100 else 0) ≤ 100 := by
  split_ifs with h
  · have ht : (0 : ℚ) < t := by exact_mod_cast h
    have hp : (p : ℚ) ≤ t := by exact_mod_cast hpt
    constructor
    · positivity
    · rw [div_mul_eq_mul_div, div_le_iff₀ ht]
      nlinarith
  · norm_num

/-- Characterization of `classify` on an arbitrary standardized result
string: the three buckets are exactly the membership tests of lines 326-340,
and they are mutually exclusive. -/
theorem classify_eq_iff (r : String) :
    (classify r = ItemOutcome.passed ↔ r = "pass" ∨ r = "yes" ∨ r = "okay") ∧
    (classify r = ItemOutcome.failed ↔ r = "fail" ∨ r = "no" ∨ r = "not okay") ∧
    (classify r = ItemOutcome.skipped ↔
      ¬(r = "pass" ∨ r = "yes" ∨ r = "okay") ∧
      ¬(r = "fail" ∨ r = "no" ∨ r = "not okay")) := by
  unfold classify
  by_cases h1 : r = "pass" ∨ r = "yes" ∨ r = "okay"
  · have hnf : ¬(r = "fail" ∨ r = "no" ∨ r = "not okay") := by
      rcases h1 with h | h | h <;> subst h <;> decide
    rw [if_pos h1]
    simp [h1, hnf]
  · rw [if_neg h1]
    by_cases h2 : r = "fail" ∨ r = "no" ∨ r = "not okay"
    · rw [if_pos h2]
      simp [h1, h2]
    · rw [if_neg h2]
      simp [h1, h2]

/-- The `filterMap` building `items_requiring_attention` is the map of the
status-entry constructor over the non-passed items, in the same order. -/
theorem attention_filterMap_eq (A : String → Option String)
    (l : List (ChecklistGroup × ChecklistItem)) :
    (l.filterMap (fun p =>
      match itemOutcome A p.1 p.2 with
      | ItemOutcome.passed => none
      | ItemOutcome.failed =>
          some { name := p.2.ChecklistName, type := p.2.ChecklistType, status := "failed" }
      | ItemOutcome.skipped =>
          some { name := p.2.ChecklistName, type := p.2.ChecklistType, status := "skipped" })
      : List AttentionItem) =
      (l.filter (fun p => decide (itemOutcome A p.1 p.2 ≠ ItemOutcome.passed))).map
        (fun p => { name := p.2.ChecklistName, type := p.2.ChecklistType,
                    status := if itemOutcome A p.1 p.2 = ItemOutcome.failed
                              then "failed" else "skipped" }) := by
  induction l with
  | nil => rfl
  | cons a l ih =>
    cases h : itemOutcome A a.1 a.2 <;> simp [List.filterMap_cons, List.filter_cons, h, ih]

/-- The non-passed items split into the failed and the skipped ones. -/
theorem length_filter_ne_passed {α : Type} (f : α → ItemOutcome) (l : List α) :
    (l.filter (fun a => decide (f a ≠ ItemOutcome.passed))).length =
      (l.filter (fun a => decide (f a = ItemOutcome.failed))).length +
        (l.filter (fun a => decide (f a = ItemOutcome.skipped))).length := by
  induction l with
  | nil => rfl
  | cons a l ih =>
    simp only [decide_not] at ih ⊢
    cases h : f a <;> simp [List.filter_cons, h, ih] <;> omega

/-- The passed items of the flattened enumeration, counted group by group. -/
theorem passed_count_flatten (A : String → Option String) (gs : List ChecklistGroup) :
    (((gs.map (fun g => g.Checklist.map (fun it => (g, it)))).flatten).filter
        (fun p => decide (itemOutcome A p.1 p.2 = ItemOutcome.passed))).length =
      (gs.map (fun g => groupPassedCount A g)).sum := by
  induction gs with
  | nil => rfl
  | cons g gs ih =>
    simp only [List.map_cons, List.flatten_cons, List.filter_append, List.length_append, ih,
      List.sum_cons]
    congr 1
    rw [List.filter_map, List.length_map]
    rfl

/-- Each item of a group of the checklist occurs, with its group, in the
enumeration. -/
theorem mem_allItems_of_mem {cd : FullChecklist} {g : ChecklistGroup} {it : ChecklistItem}
    (hg : g ∈ cd.root) (hit : it ∈ g.Checklist) : (g, it) ∈ allItems cd :=
  List.mem_flatten.mpr
    ⟨g.Checklist.map (fun it => (g, it)), List.mem_map_of_mem _ hg, List.mem_map_of_mem _ hit⟩

/-- Restricting the answer map to the checklist keys does not change any item
outcome: every lookup the loop performs uses a checklist key. -/
theorem itemOutcome_restrict (cd : FullChecklist) (A : String → Option String)
    {p : ChecklistGroup × ChecklistItem} (hp : p ∈ allItems cd) :
    itemOutcome (restrictAnswers cd A) p.1 p.2 = itemOutcome A p.1 p.2 := by
  have hk : itemKey p.1 p.2 ∈ checklistKeys cd := List.mem_map_of_mem _ hp
  simp [itemOutcome, itemResult, restrictAnswers, hk]

/-- C1: status normalization — every submitted answer value (any string, or
absent) is classified, after trimming and lowercasing, into exactly one of
the three buckets: "pass"/"yes"/"okay" are passed, "fail"/"no"/"not okay"
are failed, absence, "no selection made" and every other string are skipped;
no input fails to be classified. -/
theorem C1_status_normalization (raw : Option String) :
    (classify (normalizeAnswer raw) = ItemOutcome.passed ↔
      normalizeAnswer raw = "pass" ∨ normalizeAnswer raw = "yes" ∨ normalizeAnswer raw = "okay") ∧
    (classify (normalizeAnswer raw) = ItemOutcome.failed ↔
      normalizeAnswer raw = "fail" ∨ normalizeAnswer raw = "no" ∨ normalizeAnswer raw = "not okay") ∧
    (classify (normalizeAnswer raw) = ItemOutcome.skipped ↔
      ¬(normalizeAnswer raw = "pass" ∨ normalizeAnswer raw = "yes" ∨ normalizeAnswer raw = "okay") ∧
      ¬(normalizeAnswer raw = "fail" ∨ normalizeAnswer raw = "no" ∨ normalizeAnswer raw = "not okay")) ∧
    (raw = none → classify (normalizeAnswer raw) = ItemOutcome.skipped) ∧
    (∀ s, raw = some s → normalizeAnswer raw = pyLower (pyStrip s)) ∧
    (normalizeAnswer raw = "no selection made" →
      classify (normalizeAnswer raw) = ItemOutcome.skipped) ∧
    (classify (normalizeAnswer raw) = ItemOutcome.passed ∨
      classify (normalizeAnswer raw) = ItemOutcome.failed ∨
      classify (normalizeAnswer raw) = ItemOutcome.skipped) := by
  refine ⟨(classify_eq_iff _).1, (classify_eq_iff _).2.1, (classify_eq_iff _).2.2, ?_, ?_, ?_, ?_⟩
  · intro h; subst h; decide
  · intro s h; subst h; rfl
  · intro h; rw [h]; decide
  · unfold classify; split_ifs <;> simp

/-- Witness for C1 at the concrete raw value `" PASS "`. -/
theorem C1_status_normalization_witness :
    classify (normalizeAnswer (some " PASS ")) = ItemOutcome.passed :=
  (C1_status_normalization (some " PASS ")).1.mpr (by decide)

/-- C2: for every checklist and answer map, passed + failed + skipped counts
equal `total_items`, and `total_items` is the number of items over all
groups. -/
theorem C2_count_partition (cd : FullChecklist) (A : String → Option String) :
    (_calculate_summary_percentages cd A).passed_count +
      (_calculate_summary_percentages cd A).failed_count +
      (_calculate_summary_percentages cd A).skipped_count =
      (_calculate_summary_percentages cd A).total_items ∧
    (_calculate_summary_percentages cd A).total_items =
      (cd.root.map (fun g => g.Checklist.length)).sum := by
  constructor
  · have h := length_filter_outcome_partition
      (fun p : ChecklistGroup × ChecklistItem => itemOutcome A p.1 p.2) (allItems cd)
    simpa [_calculate_summary_percentages] using h
  · simp [_calculate_summary_percentages, allItems, List.length_flatten, List.map_map,
      Function.comp_def, List.length_map]

/-- C6: every percentage equals `count / total_items * 100`, lies in
`[0, 100]`, and is `0` when `total_items = 0` (the division is guarded, so an
empty checklist causes no fault). -/
theorem C6_percentage_bounds (cd : FullChecklist) (A : String → Option String) :
    (0 ≤ (_calculate_summary_percentages cd A).passed_percentage ∧
      (_calculate_summary_percentages cd A).passed_percentage ≤ 100) ∧
    (0 ≤ (_calculate_summary_percentages cd A).failed_percentage ∧
      (_calculate_summary_percentages cd A).failed_percentage ≤ 100) ∧
    (0 ≤ (_calculate_summary_percentages cd A).skipped_percentage ∧
      (_calculate_summary_percentages cd A).skipped_percentage ≤ 100) ∧
    ((_calculate_summary_percentages cd A).total_items ≠ 0 →
      (_calculate_summary_percentages cd A).passed_percentage =
        ((_calculate_summary_percentages cd A).passed_count : ℚ) /
          ((_calculate_summary_percentages cd A).total_items : ℚ) * 100 ∧
      (_calculate_summary_percentages cd A).failed_percentage =
        ((_calculate_summary_percentages cd A).failed_count : ℚ) /
          ((_calculate_summary_percentages cd A).total_items : ℚ) * 100 ∧
      (_calculate_summary_percentages cd A).skipped_percentage =
        ((_calculate_summary_percentages cd A).skipped_count : ℚ) /
          ((_calculate_summary_percentages cd A).total_items : ℚ) * 100) ∧
    ((_calculate_summary_percentages cd A).total_items = 0 →
      (_calculate_summary_percentages cd A).passed_percentage = 0 ∧
      (_calculate_summary_percentages cd A).failed_percentage = 0 ∧
      (_calculate_summary_percentages cd A).skipped_percentage = 0) := by
  simp only [_calculate_summary_percentages]
  refine ⟨pct_bounds _ _ (List.length_filter_le _ _),
    pct_bounds _ _ (List.length_filter_le _ _),
    pct_bounds _ _ (List.length_filter_le _ _), ?_, ?_⟩
  · intro h
    have hpos : (allItems cd).length > 0 := Nat.pos_of_ne_zero h
    simp [hpos]
  · intro h
    simp [h]

/-- Witness for C6 at a concrete two-item checklist. -/
theorem C6_percentage_bounds_witness :
    (_calculate_summary_percentages checklistW answersW).passed_percentage =
      ((_calculate_summary_percentages checklistW answersW).passed_count : ℚ) /
        ((_calculate_summary_percentages checklistW answersW).total_items : ℚ) * 100 :=
  ((C6_percentage_bounds checklistW answersW).2.2.2.1 (by decide)).1

/-- C3: `items_requiring_attention` holds exactly one `{name, type, status}`
entry for each failed or skipped item, in enumeration order, with the
matching status; passed items never appear, and the list length is
`failed_count + skipped_count`. -/
theorem C3_items_requiring_attention (cd : FullChecklist) (A : String → Option String) :
    (_calculate_summary_percentages cd A).items_requiring_attention =
      ((allItems cd).filter (fun p => decide (itemOutcome A p.1 p.2 ≠ ItemOutcome.passed))).map
        (fun p => { name := p.2.ChecklistName, type := p.2.ChecklistType,
                    status := if itemOutcome A p.1 p.2 = ItemOutcome.failed
                              then "failed" else "skipped" }) ∧
    (∀ x ∈ (_calculate_summary_percentages cd A).items_requiring_attention,
      x.status = "failed" ∨ x.status = "skipped") ∧
    (_calculate_summary_percentages cd A).items_requiring_attention.length =
      (_calculate_summary_percentages cd A).failed_count +
        (_calculate_summary_percentages cd A).skipped_count := by
  have hmain : (_calculate_summary_percentages cd A).items_requiring_attention =
      ((allItems cd).filter (fun p => decide (itemOutcome A p.1 p.2 ≠ ItemOutcome.passed))).map
        (fun p => { name := p.2.ChecklistName, type := p.2.ChecklistType,
                    status := if itemOutcome A p.1 p.2 = ItemOutcome.failed
                              then "failed" else "skipped" }) := by
    simp only [_calculate_summary_percentages]
    exact attention_filterMap_eq A (allItems cd)
  refine ⟨hmain, ?_, ?_⟩
  · intro x hx
    rw [hmain] at hx
    rcases List.mem_map.mp hx with ⟨p, hp, rfl⟩
    by_cases h : itemOutcome A p.1 p.2 = ItemOutcome.failed <;> simp [h]
  · rw [hmain, List.length_map]
    simp only [_calculate_summary_percentages]
    exact length_filter_ne_passed
      (fun p : ChecklistGroup × ChecklistItem => itemOutcome A p.1 p.2) (allItems cd)

/-- Witness for C3: the failed item of the concrete two-item checklist
appears with status "failed". -/
theorem C3_items_requiring_attention_witness :
    ({ name := "Horn", type := "Yes/No", status := "failed" } :
        AttentionItem).status = "failed" ∨
      ({ name := "Horn", type := "Yes/No", status := "failed" } :
        AttentionItem).status = "skipped" :=
  (C3_items_requiring_attention checklistW answersW).2.1 _ (by decide)

/-- C9: the per-group passed counts of the group pass-rate calculator sum to
the overall `passed_count` of the summary aggregator: both passes use the
same keys and the same normalization. -/
theorem C9_group_sum_consistency (cd : FullChecklist) (A : String → Option String) :
    (cd.root.map (fun g => groupPassedCount A g)).sum =
      (_calculate_summary_percentages cd A).passed_count := by
  simp only [_calculate_summary_percentages, allItems]
  exact (passed_count_flatten A cd.root).symm

/-- C8: answers whose key matches no item of the checklist have no effect:
removing them changes neither the summary nor the group pass rates (and the
totality of the embedded functions reflects that the Python code raises
nothing on any well-formed checklist and answer map, including empty ones). -/
theorem C8_unmatched_keys_ignored (cd : FullChecklist) (A : String → Option String) :
    _calculate_summary_percentages cd (restrictAnswers cd A) =
      _calculate_summary_percentages cd A ∧
    _calculate_group_pass_rates cd (restrictAnswers cd A) =
      _calculate_group_pass_rates cd A := by
  have hfilter : ∀ o : ItemOutcome,
      (allItems cd).filter
          (fun p => decide (itemOutcome (restrictAnswers cd A) p.1 p.2 = o)) =
        (allItems cd).filter (fun p => decide (itemOutcome A p.1 p.2 = o)) := by
    intro o
    exact List.filter_congr (fun p hp => by rw [itemOutcome_restrict cd A hp])
  have hgroup : ∀ g ∈ cd.root,
      groupPassedCount (restrictAnswers cd A) g = groupPassedCount A g := by
    intro g hg
    unfold groupPassedCount
    exact congrArg List.length (List.filter_congr (fun it hit => by
      rw [show itemOutcome (restrictAnswers cd A) g it = itemOutcome A g it from
        itemOutcome_restrict cd A (mem_allItems_of_mem hg hit)]))
  constructor
  · simp only [_calculate_summary_percentages]
    rw [hfilter ItemOutcome.passed, hfilter ItemOutcome.failed, hfilter ItemOutcome.skipped]
    congr 1
    exact List.filterMap_congr (fun p hp => by rw [itemOutcome_restrict cd A hp])
  · unfold _calculate_group_pass_rates
    exact List.map_congr_left (fun g hg => by
      unfold groupPassPercentage
      rw [hgroup g hg])

/-- Rounding half to even yields a nearest integer: the error is at most one
half. -/
theorem abs_sub_roundHalfEven_le (q : ℚ) : |q - (roundHalfEven q : ℚ)| ≤ 1 / 2 := by
  have h1 : ((⌊q⌋ : ℤ) : ℚ) ≤ q := Int.floor_le q
  have h2 : q < ((⌊q⌋ : ℤ) : ℚ) + 1 := Int.lt_floor_add_one q
  simp only [roundHalfEven]
  split_ifs with ha hb hc
  · rw [abs_le]
    constructor <;> linarith
  · push_cast
    rw [abs_le]
    constructor <;> linarith
  · rw [abs_le]
    constructor <;> linarith
  · push_cast
    rw [abs_le]
    constructor <;> linarith

/-- Rounding zero yields zero. -/
theorem roundHalfEven_zero : roundHalfEven 0 = 0 := by
  have hfl : ⌊(0 : ℚ)⌋ = 0 := by norm_num
  simp [roundHalfEven, hfl]

/-- C5: the group pass-rate calculator returns one entry per group, in group
order, whose rate string is the group pass percentage formatted as an
integer percentage string; the integer is a nearest whole number (error at
most one half, ties resolved to even as Python `.0f` formatting does), and a
group with zero items yields "0%". -/
theorem C5_group_pass_rates (cd : FullChecklist) (A : String → Option String) :
    (_calculate_group_pass_rates cd A).length = cd.root.length ∧
    (∀ i : Nat, (_calculate_group_pass_rates cd A)[i]? =
      Option.map (fun g : ChecklistGroup =>
        { GroupName := g.GroupName,
          PassRate := pyFormat0f (groupPassPercentage A g) ++ "%" : GroupPassRate })
        cd.root[i]?) ∧
    (∀ g : ChecklistGroup,
      |groupPassPercentage A g - (roundHalfEven (groupPassPercentage A g) : ℚ)| ≤ 1 / 2) ∧
    (∀ g : ChecklistGroup, g.Checklist.length = 0 →
      pyFormat0f (groupPassPercentage A g) ++ "%" = "0%") := by
  refine ⟨by simp [_calculate_group_pass_rates], ?_, fun g => abs_sub_roundHalfEven_le _, ?_⟩
  · intro i
    unfold _calculate_group_pass_rates
    exact List.getElem?_map _ _ _
  · intro g hg
    have h0 : groupPassPercentage A g = 0 := by simp [groupPassPercentage, hg]
    rw [h0]
    simp only [pyFormat0f, roundHalfEven_zero]
    rfl

/-- Witness for C5: three of four items passed gives "75%", and a group with
no items gives "0%". -/
theorem C5_group_pass_rates_witness :
    (_calculate_group_pass_rates checklistFour answersFour)[0]? =
      some { GroupName := "G4", PassRate := "75%" } ∧
    pyFormat0f (groupPassPercentage answersNone groupEmpty) ++ "%" = "0%" := by
  constructor
  · have h := (C5_group_pass_rates checklistFour answersFour).2.1 0
    have hq : groupPassPercentage answersFour groupFour = 75 := by
      show (if (4 : Nat) > 0 then ((3 : Nat) : ℚ) / ((4 : Nat) : ℚ) * 100 else 0) = 75
      norm_num
    have hfl : ⌊(75 : ℚ)⌋ = 75 := by norm_num
    have hr : roundHalfEven 75 = 75 := by
      simp [roundHalfEven, hfl]
    rw [h]
    show some ({ GroupName := groupFour.GroupName,
                 PassRate := pyFormat0f (groupPassPercentage answersFour groupFour) ++ "%" } :
        GroupPassRate) = some { GroupName := "G4", PassRate := "75%" }
    rw [hq]
    simp only [pyFormat0f, hr]
    rfl
  · exact (C5_group_pass_rates { root := [groupEmpty] } answersNone).2.2.2 groupEmpty rfl

/-- C4: the Overall Assessment paragraph is chosen by the four-way ordered
threshold on `passed_percentage`: at least 90 gives the excellent/optimal
wording, otherwise at least 50 gives the mixed wording, otherwise all items
skipped (and at least one item) gives the incomplete wording, otherwise the
significant-non-compliance wording; each wording function interpolates the
literal counts and the percentages formatted with 0 decimal places. -/
theorem C4_overall_assessment (cd : FullChecklist) (A : String → Option String)
    (s : Summary) (hs : s = _calculate_summary_percentages cd A) :
    (90 ≤ s.passed_percentage → overallAssessment s = excellentAssessment s) ∧
    (s.passed_percentage < 90 → 50 ≤ s.passed_percentage →
      overallAssessment s = mixedAssessment s) ∧
    (s.passed_percentage < 50 → s.skipped_count = s.total_items → 0 < s.total_items →
      overallAssessment s = incompleteAssessment s) ∧
    (s.passed_percentage < 50 → ¬(s.skipped_count = s.total_items ∧ 0 < s.total_items) →
      overallAssessment s = nonCompliantAssessment s) := by
  unfold overallAssessment
  refine ⟨fun h => if_pos h, ?_, ?_, ?_⟩
  · intro h1 h2
    rw [if_neg (not_le.mpr h1), if_pos h2]
  · intro h1 h2 h3
    have h90 : ¬ 90 ≤ s.passed_percentage := not_le.mpr (by linarith)
    have h50 : ¬ 50 ≤ s.passed_percentage := not_le.mpr h1
    rw [if_neg h90, if_neg h50, if_pos ⟨h2, h3⟩]
  · intro h1 hn
    have h90 : ¬ 90 ≤ s.passed_percentage := not_le.mpr (by linarith)
    have h50 : ¬ 50 ≤ s.passed_percentage := not_le.mpr h1
    rw [if_neg h90, if_neg h50, if_neg hn]

/-- Witness for C4: a one-item checklist whose item passes has a 100% pass
rate and selects the excellent wording. -/
theorem C4_overall_assessment_witness :
    overallAssessment (_calculate_summary_percentages checklistOne answersOne) =
      excellentAssessment (_calculate_summary_percentages checklistOne answersOne) := by
  have hp : (_calculate_summary_percentages checklistOne answersOne).passed_percentage = 100 := by
    show (if (1 : Nat) > 0 then ((1 : Nat) : ℚ) / ((1 : Nat) : ℚ) * 100 else 0) = 100
    norm_num
  exact (C4_overall_assessment checklistOne answersOne _ rfl).1 (by rw [hp]; norm_num)

/-- C7: the advice function is total over its three string inputs: for status
"failed" it dispatches on the lowercased type among the three recognized
keys with a generic fallback, for status "skipped" it returns the fixed
manual-inspection message independent of type, and any other status gets the
status-unknown message. -/
theorem C7_resolution_advice (item_name item_type item_status : String) :
    (item_status = "failed" → pyLower item_type = "pass/fail" →
      _get_resolution_advice item_name item_type item_status = failedAdvicePassFail item_name) ∧
    (item_status = "failed" → pyLower item_type = "yes/no" →
      _get_resolution_advice item_name item_type item_status = failedAdviceYesNo item_name) ∧
    (item_status = "failed" → pyLower item_type = "okay/not okay" →
      _get_resolution_advice item_name item_type item_status =
        failedAdviceOkayNotOkay item_name) ∧
    (item_status = "failed" → pyLower item_type ≠ "pass/fail" →
      pyLower item_type ≠ "yes/no" → pyLower item_type ≠ "okay/not okay" →
      _get_resolution_advice item_name item_type item_status = failedAdviceDefault item_name) ∧
    (item_status = "skipped" →
      _get_resolution_advice item_name item_type item_status = skippedAdvice item_name) ∧
    (item_status ≠ "failed" → item_status ≠ "skipped" →
      _get_resolution_advice item_name item_type item_status = unknownStatusAdvice item_name) := by
  refine ⟨?_, ?_, ?_, ?_, ?_, ?_⟩
  · intro hst hty
    simp [_get_resolution_advice, hst, hty]
  · intro hst hty
    simp [_get_resolution_advice, hst, hty]
  · intro hst hty
    simp [_get_resolution_advice, hst, hty]
  · intro hst h1 h2 h3
    simp [_get_resolution_advice, hst, h1, h2, h3]
  · intro hst
    simp [_get_resolution_advice, hst]
  · intro h1 h2
    simp [_get_resolution_advice, h1, h2]

/-- Witness for C7: a skipped item gets the fixed manual-inspection message. -/
theorem C7_resolution_advice_witness :
    _get_resolution_advice "Horn" "Yes/No" "skipped" = skippedAdvice "Horn" :=
  (C7_resolution_advice "Horn" "Yes/No" "skipped").2.2.2.2.1 rfl

/-- C10: status matching is case-sensitive ("Failed" falls through to the
status-unknown message for every type), while type matching is
case-insensitive ("PASS/FAIL" selects the Pass/Fail guidance). -/
theorem C10_case_handling_asymmetry (item_name item_type : String) :
    _get_resolution_advice item_name item_type "Failed" = unknownStatusAdvice item_name ∧
    _get_resolution_advice item_name "PASS/FAIL" "failed" = failedAdvicePassFail item_name := by
  constructor
  · simp [_get_resolution_advice]
  · have h : pyLower "PASS/FAIL" = "pass/fail" := by decide
    simp [_get_resolution_advice, h]

end PdfService
